import Mathlib

/-!
Verification of the Smart_Reminder application (`src/app.py`) against its
natural-language specification.

The whole program lives in one Python file.  We shallowly embed the parts the
claims are about:

* the `Reminder` model (lines 35–45): id (integer primary key), email,
  message, naive-IST `remind_at` timestamp (modelled as `Int`, so that `<=`
  on timestamps is the source's datetime comparison), and the `sent` flag;
* the database as a `List Reminder` in insertion order;
* `send_email` (lines 49–84): the SMTP interaction is external, so a tick
  receives an oracle `Nat → SmtpOutcome` giving, per reminder id, what the
  SMTP session would do on this attempt (succeed, raise
  `SMTPAuthenticationError`, raise another `SMTPException`, or raise any
  other exception — the `except Exception` catch-all);
* `check_and_send_reminders` (lines 88–112): the due query
  (`remind_at <= now, sent == False`), and the per-reminder loop that sends
  and on success sets `sent = True` and commits;
* the `index` POST handler (lines 134–177): validation and creation.

`now` is the tick's `now_ist` value (line 93), injected as a parameter.
-/

/-- The `Reminder` model (lines 35–45 of `app.py`): integer primary key,
email, message, naive-IST timestamp, and the `sent` flag whose column
default is `False` (line 42). -/
structure Reminder where
  id : Nat
  email : String
  message : String
  remind_at : Int
  sent : Bool
deriving DecidableEq, Repr

/-- The SMTP-relevant environment: `EMAIL_USER` and `EMAIL_PASS`
(lines 51–52).  An unset or empty variable is the empty string, matching
Python's falsiness test `if not email_user or not email_pass`. -/
structure Env where
  email_user : String
  email_pass : String
deriving DecidableEq, Repr

/-- What the external SMTP session does on one attempt: the four outcomes
`send_email` distinguishes (lines 72–84): the `with` block completes, or it
raises `SMTPAuthenticationError`, another `SMTPException`, or any other
exception (the `except Exception` catch-all). -/
inductive SmtpOutcome where
  | ok
  | authError
  | smtpError
  | otherError
deriving DecidableEq, Repr

/-- `send_email` (lines 49–84): returns `False` when `EMAIL_USER` or
`EMAIL_PASS` is missing, `True` exactly when the SMTP block completes, and
`False` on every caught exception.  Every outcome, including the
`except Exception` catch-all (`.otherError`), falls through to the final
`return False` (line 84), so the function is total and Boolean-valued. -/
def send_email (env : Env) (outcome : SmtpOutcome) (to_email message : String) : Bool :=
  if env.email_user = "" || env.email_pass = "" then false
  else
    match outcome with
    | .ok => true
    | .authError => false
    | .smtpError => false
    | .otherError => false

/-- The failure/success classification `send_email` writes to the log
(lines 55, 76, 79, 81, 83).  It exists only in the log messages: the
function's return value is the Boolean above. -/
inductive SendClass where
  | configError
  | authFailed
  | smtpFailed
  | unexpected
  | success
deriving DecidableEq, Repr

/-- Which log line `send_email` emits for a given environment and SMTP
outcome (lines 55, 76, 79, 81, 83). -/
def send_email_class (env : Env) (outcome : SmtpOutcome) : SendClass :=
  if env.email_user = "" || env.email_pass = "" then .configError
  else
    match outcome with
    | .ok => .success
    | .authError => .authFailed
    | .smtpError => .smtpFailed
    | .otherError => .unexpected

/-- The due query of `check_and_send_reminders` (lines 95–98):
`Reminder.remind_at <= now_ist, Reminder.sent == False`, in insertion
order.  Named after the store contract's `due_reminders`. -/
def due_reminders (store : List Reminder) (now : Int) : List Reminder :=
  store.filter fun r => decide (r.remind_at ≤ now) && (r.sent == false)

/-- The state effect of `reminder.sent = True; db.session.commit()`
(lines 108–109): the record with the given primary key gets `sent = True`. -/
def setSent (store : List Reminder) (i : Nat) : List Reminder :=
  store.map fun r => if r.id = i then { r with sent := true } else r

/-- The store contract's `mark_sent(id) -> bool`.  The state component is
exactly the code's commit, `setSent` (lines 108–109).  The Boolean
component is the contract's "whether the transition occurred", which in
this store is the observable "the commit changed some record": a record
with this id and `sent = False` existed (`mark_sent_fst_iff_changed`
below proves this equivalence). -/
def mark_sent (store : List Reminder) (i : Nat) : Bool × List Reminder :=
  (store.any fun r => r.id == i && !r.sent, setSent store i)

/-- The per-reminder loop of `check_and_send_reminders` (lines 104–112):
for each pending reminder, call `send_email`; on success set its `sent`
flag and commit; on failure only log and continue with the next one. -/
def run_pending (env : Env) (oracle : Nat → SmtpOutcome) :
    List Reminder → List Reminder → List Reminder
  | store, [] => store
  | store, r :: rest =>
    if send_email env (oracle r.id) r.email r.message then
      run_pending env oracle (setSent store r.id) rest
    else
      run_pending env oracle store rest

/-- One scheduler tick, `check_and_send_reminders` (lines 88–112): query
the pending reminders at `now`, then run the per-reminder loop (when the
query is empty the loop is a no-op, which is the early `return` of
line 102). -/
def check_and_send_reminders (env : Env) (oracle : Nat → SmtpOutcome)
    (store : List Reminder) (now : Int) : List Reminder :=
  run_pending env oracle store (due_reminders store now)

/-- The ids a tick attempts to deliver: line 106 calls `send_email` once
for every element of the `pending` list, unconditionally. -/
def attempted_ids (store : List Reminder) (now : Int) : List Nat :=
  (due_reminders store now).map (·.id)

/-- What one pass of the per-reminder loop does to a single stored record,
processing the pending entries left to right: an entry with this record's
id whose send succeeded sets the `sent` flag (`run_pending_eq_map` below
proves the loop equal to mapping this over the store). -/
def applyPend (env : Env) (oracle : Nat → SmtpOutcome) (pend : List Reminder)
    (r : Reminder) : Reminder :=
  pend.foldl
    (fun acc p =>
      if p.id == acc.id && send_email env (oracle p.id) p.email p.message
      then { acc with sent := true } else acc)
    r

-- ── Helper lemmas ────────────────────────────────────────────────────────────

theorem mark_mark (r : Reminder) :
    ({ ({ r with sent := true } : Reminder) with sent := true } : Reminder)
      = { r with sent := true } := rfl

theorem mark_id (r : Reminder) :
    ({ r with sent := true } : Reminder).id = r.id := rfl

theorem applyPend_nil (env : Env) (oracle : Nat → SmtpOutcome) (r : Reminder) :
    applyPend env oracle [] r = r := rfl

theorem applyPend_cons (env : Env) (oracle : Nat → SmtpOutcome)
    (p : Reminder) (rest : List Reminder) (r : Reminder) :
    applyPend env oracle (p :: rest) r =
      applyPend env oracle rest
        (if p.id == r.id && send_email env (oracle p.id) p.email p.message
         then { r with sent := true } else r) := rfl

theorem run_pending_eq_map (env : Env) (oracle : Nat → SmtpOutcome) :
    ∀ (pend store : List Reminder),
      run_pending env oracle store pend = store.map (applyPend env oracle pend)
  | [], store => by
    rw [run_pending]
    have h : store.map (applyPend env oracle []) = store.map id :=
      List.map_congr_left fun r _ => applyPend_nil env oracle r
    rw [h, List.map_id]
  | p :: rest, store => by
    rw [run_pending]
    split
    next hs =>
      rw [run_pending_eq_map env oracle rest (setSent store p.id)]
      unfold setSent
      rw [List.map_map]
      apply List.map_congr_left
      intro r _
      simp only [Function.comp_apply, applyPend_cons, hs, Bool.and_true]
      by_cases hid : p.id = r.id
      · simp [hid]
      · simp [hid, Ne.symm hid]
    next hs =>
      rw [run_pending_eq_map env oracle rest store]
      apply List.map_congr_left
      intro r _
      rw [applyPend_cons]
      simp [Bool.eq_false_iff.mp (Bool.of_not_eq_true hs)]

theorem check_and_send_eq_map (env : Env) (oracle : Nat → SmtpOutcome)
    (store : List Reminder) (now : Int) :
    check_and_send_reminders env oracle store now =
      store.map (applyPend env oracle (due_reminders store now)) :=
  run_pending_eq_map env oracle (due_reminders store now) store

theorem mem_due_reminders (store : List Reminder) (now : Int) (r : Reminder) :
    r ∈ due_reminders store now ↔ r ∈ store ∧ r.remind_at ≤ now ∧ r.sent = false := by
  simp [due_reminders, List.mem_filter, and_assoc]

theorem applyPend_of_no_hit (env : Env) (oracle : Nat → SmtpOutcome) :
    ∀ (pend : List Reminder) (r : Reminder),
      (∀ p ∈ pend, p.id = r.id → send_email env (oracle p.id) p.email p.message = false) →
      applyPend env oracle pend r = r
  | [], _, _ => rfl
  | p :: rest, r, h => by
    rw [applyPend_cons]
    have hc : (p.id == r.id && send_email env (oracle p.id) p.email p.message) = false := by
      by_cases hid : p.id = r.id
      · have hf := h p (List.mem_cons_self p rest) hid
        simp [hf]
      · simp [hid]
    rw [hc]
    simp only [Bool.false_eq_true, if_false]
    exact applyPend_of_no_hit env oracle rest r fun q hq => h q (List.mem_cons_of_mem p hq)

theorem applyPend_cases (env : Env) (oracle : Nat → SmtpOutcome) :
    ∀ (pend : List Reminder) (r : Reminder),
      applyPend env oracle pend r = r ∨ applyPend env oracle pend r = { r with sent := true }
  | [], _ => Or.inl rfl
  | p :: rest, r => by
    rw [applyPend_cons]
    cases hc : (p.id == r.id && send_email env (oracle p.id) p.email p.message)
    · simp only [Bool.false_eq_true, if_false]
      exact applyPend_cases env oracle rest r
    · simp only [if_true]
      rcases applyPend_cases env oracle rest { r with sent := true } with h | h
      · exact Or.inr h
      · exact Or.inr (h.trans (mark_mark r))

theorem applyPend_of_hit (env : Env) (oracle : Nat → SmtpOutcome) :
    ∀ (pend : List Reminder) (r : Reminder),
      (∃ p ∈ pend, p.id = r.id ∧ send_email env (oracle p.id) p.email p.message = true) →
      applyPend env oracle pend r = { r with sent := true }
  | [], _, h => absurd h (by simp)
  | p :: rest, r, h => by
    rw [applyPend_cons]
    cases hc : (p.id == r.id && send_email env (oracle p.id) p.email p.message)
    · have hrest : ∃ q ∈ rest, q.id = r.id ∧
          send_email env (oracle q.id) q.email q.message = true := by
        rcases h with ⟨q, hq, hid, hok⟩
        rcases List.mem_cons.mp hq with rfl | hq'
        · rw [hid] at hok
          rw [hid, hok] at hc
          simp at hc
        · exact ⟨q, hq', hid, hok⟩
      simp only [Bool.false_eq_true, if_false]
      exact applyPend_of_hit env oracle rest r hrest
    · simp only [if_true]
      rcases applyPend_cases env oracle rest { r with sent := true } with h' | h'
      · exact h'
      · exact h'.trans (mark_mark r)

theorem applyPend_id (env : Env) (oracle : Nat → SmtpOutcome)
    (pend : List Reminder) (r : Reminder) :
    (applyPend env oracle pend r).id = r.id := by
  rcases applyPend_cases env oracle pend r with h | h <;> rw [h]

theorem applyPend_monotone (env : Env) (oracle : Nat → SmtpOutcome)
    (pend : List Reminder) (a : Reminder) :
    applyPend env oracle pend a = a
      ∨ (a.sent = false ∧ applyPend env oracle pend a = { a with sent := true }) := by
  rcases applyPend_cases env oracle pend a with h | h
  · exact Or.inl h
  · cases hs : a.sent
    · exact Or.inr ⟨rfl, h⟩
    · left
      rw [h]
      cases a
      simp_all

theorem reminder_id_inj {store : List Reminder}
    (hn : (store.map Reminder.id).Nodup) {a b : Reminder}
    (ha : a ∈ store) (hb : b ∈ store) (hab : a.id = b.id) : a = b :=
  List.inj_on_of_nodup_map hn ha hb hab

theorem setSent_idem (store : List Reminder) (i : Nat) :
    setSent (setSent store i) i = setSent store i := by
  unfold setSent
  rw [List.map_map]
  apply List.map_congr_left
  intro r _
  by_cases hid : r.id = i <;> simp [Function.comp_apply, hid]

theorem map_eq_self_iff {α : Type} (f : α → α) :
    ∀ l : List α, l.map f = l ↔ ∀ a ∈ l, f a = a
  | [] => by simp
  | a :: l => by
    simp [List.map_cons, List.cons.injEq, map_eq_self_iff f l]

/-- The `mark_sent` transition Boolean is exactly the observable "the
commit of lines 108–109 changed the store". -/
theorem mark_sent_fst_iff_changed (store : List Reminder) (i : Nat) :
    (mark_sent store i).1 = true ↔ setSent store i ≠ store := by
  have h1 : (mark_sent store i).1 = true ↔ ∃ r ∈ store, r.id = i ∧ r.sent = false := by
    simp [mark_sent]
  have h3 : ∀ r : Reminder,
      ((if r.id = i then { r with sent := true } else r) = r) ↔ ¬(r.id = i ∧ r.sent = false) := by
    intro r
    by_cases hid : r.id = i
    · cases r with
      | mk a b c d s => cases s <;> simp [hid]
    · simp [hid]
  rw [h1, Ne, setSent, map_eq_self_iff]
  simp only [h3]
  push_neg
  simp


-- ── Intake (the index route) ─────────────────────────────────────────────────

/-- Python `str.strip` as applied to the form fields (lines 137–139):
drop whitespace from both ends. -/
def strip (s : String) : String :=
  ⟨((s.data.dropWhile Char.isWhitespace).reverse.dropWhile Char.isWhitespace).reverse⟩

/-- A freshly constructed `Reminder(email=..., message=..., remind_at=...)`
(line 165): the `sent` column takes its default `False` (line 42); the id
is the primary key the database assigns on commit. -/
def newReminder (i : Nat) (email message : String) (remind_at : Int) : Reminder :=
  { id := i, email := email, message := message, remind_at := remind_at, sent := false }

/-- The POST branch of the `index` route (lines 136–175).  `parse` stands
for `datetime.strptime(remind_str, "%Y-%m-%dT%H:%M")`, `none` being a
raised `ValueError`; `now` is `now_ist` (line 154); `nextId` is the
primary key the database would assign.  Returns the flashed error
messages and the store after the request: on any error the handler
redirects before `db.session.add`, so the store is unchanged. -/
def index_post (parse : String → Option Int) (now : Int) (nextId : Nat)
    (store : List Reminder) (email0 message0 remind0 : String) :
    List String × List Reminder :=
  let email := strip email0
  let message := strip message0
  let remind_str := strip remind0
  let errors1 := if email = "" then ["Email address is required."] else []
  let errors2 := errors1 ++ (if message = "" then ["Reminder message is required."] else [])
  let errors3 := errors2 ++ (if remind_str = "" then ["Date & time is required."] else [])
  let parsed : List String × Option Int :=
    if remind_str ≠ "" then
      match parse remind_str with
      | some dt =>
        (errors3 ++ (if dt ≤ now then ["Scheduled time must be in the future."] else []),
         some dt)
      | none => (errors3 ++ ["Invalid date/time format."], none)
    else (errors3, none)
  match parsed with
  | (errors, remind_dt) =>
    if errors ≠ [] then (errors, store)
    else
      match remind_dt with
      | some dt => ([], store ++ [newReminder nextId email message dt])
      | none => ([], store)

-- ── Claim theorems ───────────────────────────────────────────────────────────

/-- Claim C1: due-reminder selection is exact — for every store state and
every `now`, the tick's due query returns exactly the records with
`sent = false` and `remind_at ≤ now`: every reminder with
`remind_at > now` is excluded, and every unsent reminder with
`remind_at ≤ now` is included (and stays included while the store holds
it unsent, since the query is recomputed from the store). -/
theorem due_selection_exact (store : List Reminder) (now : Int) (r : Reminder) :
    r ∈ due_reminders store now ↔ r ∈ store ∧ r.remind_at ≤ now ∧ r.sent = false :=
  mem_due_reminders store now r

/-- Claim C2: marking a reminder sent is an at-most-once transition —
when the store holds a record with the given id and `sent = false`, the
first `mark_sent` reports the transition and the second one reports no
transition and leaves the store exactly as after the first. -/
theorem mark_sent_at_most_once (store : List Reminder) (i : Nat)
    (h : ∃ r ∈ store, r.id = i ∧ r.sent = false) :
    (mark_sent store i).1 = true
    ∧ (mark_sent (mark_sent store i).2 i).1 = false
    ∧ (mark_sent (mark_sent store i).2 i).2 = (mark_sent store i).2 := by
  refine ⟨?_, ?_, ?_⟩
  · rcases h with ⟨r, hr, hid, hs⟩
    simp only [mark_sent, List.any_eq_true, Bool.and_eq_true, beq_iff_eq,
      Bool.not_eq_true']
    exact ⟨r, hr, hid, hs⟩
  · simp only [mark_sent]
    rw [List.any_eq_false]
    intro r hr
    rcases List.mem_map.mp hr with ⟨a, _, rfl⟩
    by_cases hid : a.id = i <;> simp [hid]
  · exact setSent_idem store i

/-- Witness for C2 at a concrete one-record store. -/
theorem mark_sent_at_most_once_witness :
    (mark_sent [⟨1, "a@b", "hi", 0, false⟩] 1).1 = true
    ∧ (mark_sent (mark_sent [⟨1, "a@b", "hi", 0, false⟩] 1).2 1).1 = false
    ∧ (mark_sent (mark_sent [⟨1, "a@b", "hi", 0, false⟩] 1).2 1).2
        = (mark_sent [⟨1, "a@b", "hi", 0, false⟩] 1).2 :=
  mark_sent_at_most_once [⟨1, "a@b", "hi", 0, false⟩] 1 (by decide)

/-- Claim C10: the send boundary is total — `send_email` returns a
Boolean for every environment and every SMTP outcome (success, auth
failure, other SMTP failure, or any other exception, all caught inside),
and it returns `true` exactly when the credentials are configured and the
SMTP block completes successfully. -/
theorem send_email_total_boundary (env : Env) (o : SmtpOutcome) (to_email msg : String) :
    send_email env o to_email msg = true
      ↔ env.email_user ≠ "" ∧ env.email_pass ≠ "" ∧ o = SmtpOutcome.ok := by
  unfold send_email
  by_cases h1 : env.email_user = "" <;> by_cases h2 : env.email_pass = "" <;>
    cases o <;> simp [h1, h2]

/-- Claim C7: creation validation — given that the raw timestamp field
parses (`strptime` succeeds on the stripped, non-empty field, yielding
`dt`), the handler flashes an error and persists nothing exactly when the
stripped recipient is empty, the stripped message is empty, or `dt` is
not strictly after `now_ist`; otherwise it persists exactly one new
reminder, with `sent` initially `false`. -/
theorem create_validation (parse : String → Option Int) (now : Int) (nextId : Nat)
    (store : List Reminder) (email0 message0 remind0 : String) (dt : Int)
    (hne : strip remind0 ≠ "")
    (hp : parse (strip remind0) = some dt) :
    ((index_post parse now nextId store email0 message0 remind0).1 ≠ []
        ↔ (strip email0 = "" ∨ strip message0 = "" ∨ dt ≤ now))
    ∧ ((index_post parse now nextId store email0 message0 remind0).1 ≠ [] →
        (index_post parse now nextId store email0 message0 remind0).2 = store)
    ∧ ((index_post parse now nextId store email0 message0 remind0).1 = [] →
        (index_post parse now nextId store email0 message0 remind0).2
          = store ++ [newReminder nextId (strip email0) (strip message0) dt])
    ∧ (newReminder nextId (strip email0) (strip message0) dt).sent = false := by
  by_cases h1 : strip email0 = "" <;> by_cases h2 : strip message0 = "" <;>
    by_cases h3 : dt ≤ now <;>
      simp [index_post, hne, hp, h1, h2, h3, newReminder]

/-- A concrete stand-in for `strptime` used by the C7 witness. -/
def sampleParse : String → Option Int :=
  fun s => if s = "2030-01-01T00:00" then some 100 else none

/-- Witness for C7: a valid creation at a concrete input. -/
theorem create_validation_witness :
    (((index_post sampleParse 0 1 [] "a@b" "hi" "2030-01-01T00:00").1 ≠ []
        ↔ (strip "a@b" = "" ∨ strip "hi" = "" ∨ (100 : Int) ≤ 0))
    ∧ ((index_post sampleParse 0 1 [] "a@b" "hi" "2030-01-01T00:00").1 ≠ [] →
        (index_post sampleParse 0 1 [] "a@b" "hi" "2030-01-01T00:00").2 = [])
    ∧ ((index_post sampleParse 0 1 [] "a@b" "hi" "2030-01-01T00:00").1 = [] →
        (index_post sampleParse 0 1 [] "a@b" "hi" "2030-01-01T00:00").2
          = [] ++ [newReminder 1 (strip "a@b") (strip "hi") 100])
    ∧ (newReminder 1 (strip "a@b") (strip "hi") 100).sent = false) :=
  create_validation sampleParse 0 1 [] "a@b" "hi" "2030-01-01T00:00" 100
    (by decide) (by decide)

-- ── More helper lemmas ───────────────────────────────────────────────────────

theorem applyPend_due_hit (env : Env) (oracle : Nat → SmtpOutcome)
    (store : List Reminder) (now : Int) (r : Reminder)
    (hrdue : r ∈ due_reminders store now)
    (hok : send_email env (oracle r.id) r.email r.message = true) :
    applyPend env oracle (due_reminders store now) r = { r with sent := true } :=
  applyPend_of_hit env oracle _ r ⟨r, hrdue, rfl, hok⟩

theorem applyPend_due_miss (env : Env) (oracle : Nat → SmtpOutcome)
    (store : List Reminder) (now : Int) (r : Reminder)
    (hn : (store.map Reminder.id).Nodup) (hr : r ∈ store)
    (hf : send_email env (oracle r.id) r.email r.message = false) :
    applyPend env oracle (due_reminders store now) r = r := by
  apply applyPend_of_no_hit
  intro p hp hid
  have hpst : p ∈ store := ((mem_due_reminders store now p).mp hp).1
  have hpr : p = r := reminder_id_inj hn hpst hr hid
  subst hpr
  exact hf

theorem applyPend_congr (env : Env) (oracle₁ oracle₂ : Nat → SmtpOutcome)
    (hsame : ∀ r : Reminder, send_email env (oracle₁ r.id) r.email r.message
        = send_email env (oracle₂ r.id) r.email r.message) :
    ∀ (pend : List Reminder) (r : Reminder),
      applyPend env oracle₁ pend r = applyPend env oracle₂ pend r
  | [], _ => rfl
  | p :: rest, r => by
    rw [applyPend_cons, applyPend_cons, hsame p,
      applyPend_congr env oracle₁ oracle₂ hsame rest]

-- ── Claim theorems (continued) ───────────────────────────────────────────────

/-- Claim C3: retry on failure with state unchanged on error — when the
send for a due unsent reminder fails during a tick (ids being unique, as
the primary key guarantees), the record comes out of the tick unchanged
(still present, still unsent), is selected again by the due query at the
next tick, and is among the ids that next tick attempts. -/
theorem retry_on_failure (env : Env) (oracle : Nat → SmtpOutcome)
    (store : List Reminder) (now : Int) (r : Reminder)
    (hn : (store.map Reminder.id).Nodup)
    (hr : r ∈ store) (hd : r.remind_at ≤ now) (hs : r.sent = false)
    (hf : send_email env (oracle r.id) r.email r.message = false) :
    r ∈ check_and_send_reminders env oracle store now
    ∧ r ∈ due_reminders (check_and_send_reminders env oracle store now) now
    ∧ r.id ∈ attempted_ids (check_and_send_reminders env oracle store now) now := by
  have hfix := applyPend_due_miss env oracle store now r hn hr hf
  have h1 : r ∈ check_and_send_reminders env oracle store now := by
    rw [check_and_send_eq_map]
    have hm := List.mem_map_of_mem (applyPend env oracle (due_reminders store now)) hr
    rwa [hfix] at hm
  have h2 : r ∈ due_reminders (check_and_send_reminders env oracle store now) now :=
    (mem_due_reminders _ _ _).mpr ⟨h1, hd, hs⟩
  exact ⟨h1, h2, List.mem_map_of_mem _ h2⟩

/-- Witness for C3: a transient SMTP failure on a concrete one-record
store leaves the record due for the next tick. -/
theorem retry_on_failure_witness :
    (⟨1, "a@b", "hi", 0, false⟩ : Reminder)
        ∈ check_and_send_reminders ⟨"u", "p"⟩ (fun _ => SmtpOutcome.smtpError)
            [⟨1, "a@b", "hi", 0, false⟩] 0
    ∧ (⟨1, "a@b", "hi", 0, false⟩ : Reminder)
        ∈ due_reminders (check_and_send_reminders ⟨"u", "p"⟩
            (fun _ => SmtpOutcome.smtpError) [⟨1, "a@b", "hi", 0, false⟩] 0) 0
    ∧ (1 : Nat) ∈ attempted_ids (check_and_send_reminders ⟨"u", "p"⟩
        (fun _ => SmtpOutcome.smtpError) [⟨1, "a@b", "hi", 0, false⟩] 0) 0 :=
  retry_on_failure ⟨"u", "p"⟩ (fun _ => SmtpOutcome.smtpError)
    [⟨1, "a@b", "hi", 0, false⟩] 0 ⟨1, "a@b", "hi", 0, false⟩
    (by decide) (by decide) (by decide) (by decide) (by decide)

/-- Claim C4: no retry after success — when the send for a due unsent
reminder succeeds on a tick (ids unique), the tick stores it with
`sent = true`, and the due query of the next tick at the same `now`
selects no record with its id. -/
theorem no_retry_after_success (env : Env) (oracle : Nat → SmtpOutcome)
    (store : List Reminder) (now : Int) (r : Reminder)
    (hn : (store.map Reminder.id).Nodup)
    (hr : r ∈ store) (hd : r.remind_at ≤ now) (hs : r.sent = false)
    (hok : send_email env (oracle r.id) r.email r.message = true) :
    ({ r with sent := true } : Reminder) ∈ check_and_send_reminders env oracle store now
    ∧ ∀ p ∈ due_reminders (check_and_send_reminders env oracle store now) now,
        p.id ≠ r.id := by
  have hrdue : r ∈ due_reminders store now := (mem_due_reminders store now r).mpr ⟨hr, hd, hs⟩
  have hmark := applyPend_due_hit env oracle store now r hrdue hok
  constructor
  · rw [check_and_send_eq_map]
    have hm := List.mem_map_of_mem (applyPend env oracle (due_reminders store now)) hr
    rwa [hmark] at hm
  · intro p hp hpid
    have hpt : p ∈ check_and_send_reminders env oracle store now :=
      ((mem_due_reminders _ _ _).mp hp).1
    have hpsent : p.sent = false := ((mem_due_reminders _ _ _).mp hp).2.2
    rw [check_and_send_eq_map] at hpt
    rcases List.mem_map.mp hpt with ⟨a, ha, hpa⟩
    have haid : a.id = r.id := by rw [← hpid, ← hpa, applyPend_id]
    have har : a = r := reminder_id_inj hn ha hr haid
    rw [har, hmark] at hpa
    rw [← hpa] at hpsent
    simp at hpsent

/-- Witness for C4: a successful send on a concrete one-record store. -/
theorem no_retry_after_success_witness :
    (⟨1, "a@b", "hi", 0, true⟩ : Reminder)
        ∈ check_and_send_reminders ⟨"u", "p"⟩ (fun _ => SmtpOutcome.ok)
            [⟨1, "a@b", "hi", 0, false⟩] 0
    ∧ ∀ p ∈ due_reminders (check_and_send_reminders ⟨"u", "p"⟩
          (fun _ => SmtpOutcome.ok) [⟨1, "a@b", "hi", 0, false⟩] 0) 0,
        p.id ≠ 1 :=
  no_retry_after_success ⟨"u", "p"⟩ (fun _ => SmtpOutcome.ok)
    [⟨1, "a@b", "hi", 0, false⟩] 0 ⟨1, "a@b", "hi", 0, false⟩
    (by decide) (by decide) (by decide) (by decide) (by decide)

/-- Claim C5: monotonicity of the `sent` flag — a freshly created record
has `sent = false`, and a tick maps every stored record either to itself
or, when it was unsent, to the same record with `sent = true`: no record
ever goes from `sent = true` back to `sent = false`, so the flag
transitions false→true at most once across any sequence of ticks. -/
theorem sent_monotone (env : Env) (oracle : Nat → SmtpOutcome)
    (store : List Reminder) (now : Int) :
    (∀ (i : Nat) (email message : String) (remind_at : Int),
        (newReminder i email message remind_at).sent = false)
    ∧ List.Forall₂ (fun a b => b = a ∨ (a.sent = false ∧ b = { a with sent := true }))
        store (check_and_send_reminders env oracle store now) := by
  constructor
  · intro i e m t
    rfl
  · rw [check_and_send_eq_map, List.forall₂_map_right_iff, List.forall₂_same]
    intro a _
    exact applyPend_monotone env oracle _ a

/-- Claim C6: per-reminder crash isolation within a tick — if reminder
`a`'s send raises (the catch-all maps any exception to `False`) or fails
while reminder `b`'s send succeeds in the same tick, `b` is still stored
with `sent = true`, and `a` comes through unchanged: one failure never
aborts the processing of the other reminders of the tick. -/
theorem tick_crash_isolation (env : Env) (oracle : Nat → SmtpOutcome)
    (store : List Reminder) (now : Int) (a b : Reminder)
    (hn : (store.map Reminder.id).Nodup)
    (ha : a ∈ store) (hda : a.remind_at ≤ now) (hsa : a.sent = false)
    (hb : b ∈ store) (hdb : b.remind_at ≤ now) (hsb : b.sent = false)
    (hfa : send_email env (oracle a.id) a.email a.message = false)
    (hokb : send_email env (oracle b.id) b.email b.message = true) :
    ({ b with sent := true } : Reminder) ∈ check_and_send_reminders env oracle store now
    ∧ a ∈ check_and_send_reminders env oracle store now := by
  have hbdue : b ∈ due_reminders store now := (mem_due_reminders store now b).mpr ⟨hb, hdb, hsb⟩
  have hmark := applyPend_due_hit env oracle store now b hbdue hokb
  have hfix := applyPend_due_miss env oracle store now a hn ha hfa
  constructor
  · rw [check_and_send_eq_map]
    have hm := List.mem_map_of_mem (applyPend env oracle (due_reminders store now)) hb
    rwa [hmark] at hm
  · rw [check_and_send_eq_map]
    have hm := List.mem_map_of_mem (applyPend env oracle (due_reminders store now)) ha
    rwa [hfix] at hm

/-- Witness for C6: reminder 1's send raises an unexpected exception
(caught inside `send_email`), reminder 2's send succeeds; reminder 2 is
marked sent and reminder 1 is untouched. -/
theorem tick_crash_isolation_witness :
    (⟨2, "c@d", "h2", 0, true⟩ : Reminder)
        ∈ check_and_send_reminders ⟨"u", "p"⟩
            (fun i => if i = 1 then SmtpOutcome.otherError else SmtpOutcome.ok)
            [⟨1, "a@b", "h1", 0, false⟩, ⟨2, "c@d", "h2", 0, false⟩] 0
    ∧ (⟨1, "a@b", "h1", 0, false⟩ : Reminder)
        ∈ check_and_send_reminders ⟨"u", "p"⟩
            (fun i => if i = 1 then SmtpOutcome.otherError else SmtpOutcome.ok)
            [⟨1, "a@b", "h1", 0, false⟩, ⟨2, "c@d", "h2", 0, false⟩] 0 :=
  tick_crash_isolation ⟨"u", "p"⟩
    (fun i => if i = 1 then SmtpOutcome.otherError else SmtpOutcome.ok)
    [⟨1, "a@b", "h1", 0, false⟩, ⟨2, "c@d", "h2", 0, false⟩] 0
    ⟨1, "a@b", "h1", 0, false⟩ ⟨2, "c@d", "h2", 0, false⟩
    (by decide) (by decide) (by decide) (by decide)
    (by decide) (by decide) (by decide) (by decide) (by decide)

/-- Claim C8 counterexample: `send_email` does not return a classified
result — a configuration error (missing credentials) and a transient SMTP
error produce the same returned value `false`, although their log
classifications differ, and the core retries the configuration error on
the next tick (the reminder is still selected as due), while the claim
says a `ConfigurationError` is not retryable and the retry decision is
taken from the classification. -/
theorem notifier_result_counterexample :
    send_email ⟨"", ""⟩ SmtpOutcome.ok "a@b" "hi"
        = send_email ⟨"u", "p"⟩ SmtpOutcome.smtpError "a@b" "hi"
    ∧ send_email_class ⟨"", ""⟩ SmtpOutcome.ok
        ≠ send_email_class ⟨"u", "p"⟩ SmtpOutcome.smtpError
    ∧ due_reminders (check_and_send_reminders ⟨"", ""⟩ (fun _ => SmtpOutcome.ok)
        [⟨1, "a@b", "hi", 0, false⟩] 0) 0 = [⟨1, "a@b", "hi", 0, false⟩] := by
  refine ⟨by decide, by decide, by decide⟩

/-- Claim C8 as amended: `send_email` collapses its failure
classification into a single Boolean — the classification (configuration,
authentication, SMTP, unexpected) exists only in the log — and the core
decides retry purely from that Boolean: two oracles whose sends return
the same Booleans produce identical ticks, and every failure class,
configuration errors included, is retried. -/
theorem notifier_boolean_collapse (env : Env) (o : SmtpOutcome) (to_email msg : String) :
    send_email env o to_email msg = (send_email_class env o == SendClass.success)
    ∧ ∀ (oracle₁ oracle₂ : Nat → SmtpOutcome) (store : List Reminder) (now : Int),
        (∀ r : Reminder, send_email env (oracle₁ r.id) r.email r.message
            = send_email env (oracle₂ r.id) r.email r.message) →
        check_and_send_reminders env oracle₁ store now
          = check_and_send_reminders env oracle₂ store now := by
  constructor
  · unfold send_email send_email_class
    by_cases h1 : env.email_user = "" <;> by_cases h2 : env.email_pass = "" <;>
      cases o <;> simp [h1, h2]
  · intro oracle₁ oracle₂ store now hsame
    rw [check_and_send_eq_map, check_and_send_eq_map]
    exact List.map_congr_left fun r _ => applyPend_congr env oracle₁ oracle₂ hsame _ r

/-- Witness for the amended C8: a transient SMTP error and an unexpected
exception return the same Boolean, so the two ticks coincide. -/
theorem notifier_boolean_collapse_witness :
    send_email ⟨"u", "p"⟩ SmtpOutcome.smtpError "a@b" "hi"
        = (send_email_class ⟨"u", "p"⟩ SmtpOutcome.smtpError == SendClass.success)
    ∧ check_and_send_reminders ⟨"u", "p"⟩ (fun _ => SmtpOutcome.smtpError)
          [⟨1, "a@b", "hi", 0, false⟩] 0
        = check_and_send_reminders ⟨"u", "p"⟩ (fun _ => SmtpOutcome.otherError)
          [⟨1, "a@b", "hi", 0, false⟩] 0 :=
  ⟨(notifier_boolean_collapse ⟨"u", "p"⟩ SmtpOutcome.smtpError "a@b" "hi").1,
    (notifier_boolean_collapse ⟨"u", "p"⟩ SmtpOutcome.smtpError "a@b" "hi").2
      (fun _ => SmtpOutcome.smtpError) (fun _ => SmtpOutcome.otherError)
      [⟨1, "a@b", "hi", 0, false⟩] 0 (fun _ => rfl)⟩
